import Mathlib

/-!
Shallow embedding of the split/merge balance-reconciliation, order-signing,
order-book upsert, HTTP client, wallet-adapter and transaction-polling logic
of the stackcast web front-end, together with theorems settling the frozen
claims about it.

The repository ships several near-identical variants of some modules
(concatenated variant documents inside the same source file).  Where two
variants of a function disagree, both are embedded under distinct Lean names
and the divergence is proved explicitly.

External library calls (chain reads, SHA-256, Clarity principal
serialization, the wallet extension, JSON parsing) are modelled as explicit
function parameters: the embedded functions are parameterized by the
behaviour of the external world, never by hidden state.
-/

namespace StackcastWeb

/-- Order side, from the `OrderSide` union type (`'BUY' | 'SELL'`). -/
inductive OrderSide where
  | BUY
  | SELL
deriving DecidableEq, Repr

/-- Outcome side of a binary market, from the `"yes" | "no"` literal type. -/
inductive Outcome where
  | yes
  | no
deriving DecidableEq, Repr

/-! ## Balance reconciliation (split / merge), src/unnamed/part_010

On-chain balances are Clarity uints read through `checkPositionBalance`
(which returns the balance, or zero on any read failure); the read is
modelled by a function `balanceOf : String → ℕ` from position id to balance.
Order sizes are JS numbers (possibly fractional token counts) modelled as
rationals; `Math.floor (size * 1_000_000)` is `Rat.floor`, and the `BigInt`
comparison against the balance is carried out in `ℤ`. -/

/-- Result record of `checkIfNeedsSplit`. -/
structure SplitCheckResult where
  needsSplit : Bool
  requiredPositionId : String
  currentBalance : ℤ
  requiredBalance : ℤ
deriving DecidableEq, Repr

/-- Embedding of `checkIfNeedsSplit`, src/unnamed/part_010 lines 365-410:
for BUY the required position is the opposite outcome's, for SELL the same
outcome's; the required balance is `Math.floor(size * 1_000_000)` and
`needsSplit` holds iff the current balance is strictly below it. -/
def checkIfNeedsSplit (balanceOf : String → ℕ) (side : OrderSide)
    (outcome : Outcome) (size : ℚ) (yesPositionId noPositionId : String) :
    SplitCheckResult :=
  let requiredPositionId :=
    match side with
    | .BUY => if outcome = .yes then noPositionId else yesPositionId
    | .SELL => if outcome = .yes then yesPositionId else noPositionId
  let currentBalance : ℤ := (balanceOf requiredPositionId : ℤ)
  let requiredBalance : ℤ := (size * 1000000).floor
  { needsSplit := decide (currentBalance < requiredBalance)
    requiredPositionId := requiredPositionId
    currentBalance := currentBalance
    requiredBalance := requiredBalance }

/-- Embedding of the other `checkIfNeedsSplit` variant, src/unnamed/part_010
lines 123-180: BUY orders return early with `needsSplit = false`, an empty
required position id and zero balances; SELL orders check the same outcome's
position (or an explicit `requiredPositionId` override when supplied). -/
def checkIfNeedsSplit_buyExempt (balanceOf : String → ℕ) (side : OrderSide)
    (outcome : Outcome) (size : ℚ) (yesPositionId noPositionId : String)
    (overridePositionId : Option String) : SplitCheckResult :=
  if side = .BUY then
    { needsSplit := false, requiredPositionId := "", currentBalance := 0
      requiredBalance := 0 }
  else
    let requiredPositionId :=
      overridePositionId.getD (if outcome = .yes then yesPositionId else noPositionId)
    let currentBalance : ℤ := (balanceOf requiredPositionId : ℤ)
    let requiredBalance : ℤ := (size * 1000000).floor
    { needsSplit := decide (currentBalance < requiredBalance)
      requiredPositionId := requiredPositionId
      currentBalance := currentBalance
      requiredBalance := requiredBalance }

/-- Result record of `checkMergeablePairs`. -/
structure MergeablePairsResult where
  mergeableAmount : ℕ
  yesBalance : ℕ
  noBalance : ℕ
deriving DecidableEq, Repr

/-- Embedding of `checkMergeablePairs`, src/unnamed/part_010 (both variant
documents are textually identical here): reads both position balances and
returns `yesBalance < noBalance ? yesBalance : noBalance` as the mergeable
amount. -/
def checkMergeablePairs (balanceOf : String → ℕ)
    (yesPositionId noPositionId : String) : MergeablePairsResult :=
  let yesBalance := balanceOf yesPositionId
  let noBalance := balanceOf noPositionId
  { mergeableAmount := if yesBalance < noBalance then yesBalance else noBalance
    yesBalance := yesBalance
    noBalance := noBalance }

/-- Refinement-side definition following the spec's words for the position
relevant to a split check: the *opposite* outcome's position for BUY and the
*same* outcome's position for SELL. -/
def specRelevantPositionId (side : OrderSide) (outcome : Outcome)
    (yesPositionId noPositionId : String) : String :=
  match side, outcome with
  | .BUY, .yes => noPositionId
  | .BUY, .no => yesPositionId
  | .SELL, .yes => yesPositionId
  | .SELL, .no => noPositionId

/-! ## Order-book level upsert, src/src/api/queries/orderbook.ts

The optimistic-update path of `usePlaceSmartOrder` rewrites one side of the
cached order book with `upsertOrderbookLevel`.  Prices and sizes are JS
numbers, modelled as rationals; the `orderCount` field is optional in the
`OrderbookLevel` type.  JS `Array.prototype.sort` with the comparator
`(a, b) => side === 'BUY' ? b.price - a.price : a.price - b.price` is
modelled by `List.insertionSort` over the corresponding relation
`levelOrder` (any comparator-correct sort yields a list pairwise ordered by
that relation, which is all the claims use). -/

/-- Order-book price level, from the `OrderbookLevel` type. -/
structure OrderbookLevel where
  price : ℚ
  size : ℚ
  orderCount : Option ℕ
deriving DecidableEq, Repr

/-- Relation realised by the sort comparator of `upsertOrderbookLevel`:
for BUY `b.price - a.price ≤ 0`, for SELL `a.price - b.price ≤ 0`. -/
def levelOrder (side : OrderSide) (a b : OrderbookLevel) : Prop :=
  match side with
  | .BUY => b.price ≤ a.price
  | .SELL => a.price ≤ b.price

instance (side : OrderSide) : DecidableRel (levelOrder side) := fun a b => by
  cases side <;> dsimp [levelOrder] <;> infer_instance

instance (side : OrderSide) : IsTotal OrderbookLevel (levelOrder side) where
  total a b := by cases side <;> dsimp [levelOrder] <;> exact le_total _ _

instance (side : OrderSide) : IsTrans OrderbookLevel (levelOrder side) where
  trans a b c hab hbc := by
    cases side <;> dsimp [levelOrder] at * <;> exact le_trans (by assumption) (by assumption)

/-- Specification of a successful `findIndex`: the reported index is past the
start offset and the element there satisfies the predicate. -/
theorem findIdx?_some_spec {α : Type} {p : α → Bool} :
    ∀ {l : List α} {s i : ℕ}, List.findIdx? p l s = some i →
      s ≤ i ∧ ∃ a, l[i - s]? = some a ∧ p a = true := by
  intro l
  induction l with
  | nil => intro s i h; simp [List.findIdx?] at h
  | cons x xs ih =>
    intro s i h
    rw [List.findIdx?_cons] at h
    by_cases hp : p x = true
    · simp only [hp, if_true, Option.some.injEq] at h
      subst h
      exact ⟨le_refl s, x, by simp [Nat.sub_self], hp⟩
    · simp only [hp, if_false] at h
      obtain ⟨hle, a, ha, hpa⟩ := ih h
      have hi : i - s = (i - (s + 1)) + 1 := by omega
      exact ⟨by omega, a, by rw [hi]; simpa using ha, hpa⟩

/-- A successful `findIndex` reports an in-bounds index. -/
theorem findIdx?_some_lt_length {α : Type} {p : α → Bool} {l : List α}
    {i : ℕ} (h : List.findIdx? p l = some i) : i < l.length := by
  obtain ⟨-, a, ha, -⟩ := findIdx?_some_spec h
  by_contra hc
  push_neg at hc
  rw [List.getElem?_eq_none (by simpa using hc)] at ha
  cases ha

/-- Writing back the element already stored at an index leaves the list
unchanged. -/
theorem set_getElem?_eq_self {α : Type} :
    ∀ (l : List α) (i : ℕ) (a : α), l[i]? = some a → l.set i a = l
  | [], _, _, h => by simp at h
  | x :: _, 0, a, h => by
    simp only [List.getElem?_cons_zero, Option.some.injEq] at h
    simp [List.set, h]
  | x :: xs, i + 1, a, h => by
    simp only [List.getElem?_cons_succ] at h
    simp [List.set, set_getElem?_eq_self xs i a h]

/-- Embedding of `upsertOrderbookLevel`, src/src/api/queries/orderbook.ts
lines 176-206: copy the levels, find the first level at the given price and
add the size delta to it (bumping its order count), otherwise append a fresh
level, then sort by the side's comparator (bids descending, asks
ascending). -/
def upsertOrderbookLevel (levels : List OrderbookLevel) (price sizeDelta : ℚ)
    (side : OrderSide) : List OrderbookLevel :=
  let next := levels.map fun l =>
    { price := l.price, size := l.size, orderCount := l.orderCount }
  let updated :=
    match h : next.findIdx? fun l => decide (l.price = price) with
    | some index =>
        let level := next.get ⟨index, findIdx?_some_lt_length h⟩
        next.set index
          { price := price, size := level.size + sizeDelta,
            orderCount := some (level.orderCount.getD 0 + 1) }
    | none => next ++ [{ price := price, size := sizeDelta, orderCount := some 1 }]
  List.insertionSort (levelOrder side) updated

/-! ## Base API client, src/unnamed/part_008 (`apiRequest`) and
src/unnamed/part_007 (`request`, textually identical behaviour)

`fetch` is modelled by a stream of HTTP responses indexed by call number (a
transport-level failure is outside this model, which assumes a response
arrived); `response.ok` is `200 ≤ status ≤ 299` per the fetch specification,
`response.json()` is an explicit parse parameter, and a JS falsy test on the
body text is a test against the empty string. -/

/-- An HTTP response as `apiRequest` observes it. -/
structure HttpResponse where
  status : ℕ
  bodyText : String
deriving DecidableEq, Repr

/-- Embedding of `apiRequest` (src/unnamed/part_008 lines 28-50) and
`request` (src/unnamed/part_007 lines 17-36): one fetch consuming
`responses 0`; on non-2xx throw the body text (or a generic status message
when the body is empty); on 2xx return `none` under `skipJson`, otherwise
the parsed JSON body. -/
def apiRequest {α : Type} (parseJson : String → Except String α)
    (responses : ℕ → HttpResponse) (skipJson : Bool) :
    Except String (Option α) :=
  let response := responses 0
  if ¬ (200 ≤ response.status ∧ response.status ≤ 299) then
    .error (if response.bodyText = "" then
        "Request failed with status " ++ toString response.status
      else response.bodyText)
  else if skipJson then .ok none
  else (parseJson response.bodyText).map some

/-! ## Transaction-confirmation polling, src/unnamed/part_010
(`waitForTransactionConfirmation`, lines 20-59 and 271-315; the two variant
documents differ only in how the status is fetched)

The loop polls every `pollIntervalMs` and re-checks the guard
`Date.now() - startTime < maxWaitMs`; with iteration `n` starting at elapsed
time `n * pollIntervalMs`, the guard admits exactly
`⌈maxWaitMs / pollIntervalMs⌉` iterations, so the timed while-loop is
embedded as a countdown over that iteration count.  A poll either yields a
`tx_status` string or throws (the catch branch), hence
`poll : ℕ → Except String String`; statuses other than the terminal three
(`success`, `abort_by_response`, `abort_by_post_condition`) — including
`not_found`, `pending` and a thrown fetch error — sleep and retry. -/

/-- Result record of `waitForTransactionConfirmation`. -/
structure TxConfirmation where
  success : Bool
  status : String
deriving DecidableEq, Repr

/-- Poll interval of the confirmation loop: 2000 ms. -/
def pollIntervalMs : ℕ := 2000

/-- Default maximum wait of the confirmation loop: 120000 ms (2 minutes). -/
def defaultMaxWaitMs : ℕ := 120000

/-- Terminal-status check of one loop iteration: `some` with the returned
record when the polled status is terminal, `none` when the loop sleeps and
retries (not-found, pending and any other status, or a polling error). -/
def pollStep (r : Except String String) : Option TxConfirmation :=
  match r with
  | .ok s =>
      if s = "success" then some { success := true, status := "success" }
      else if s = "abort_by_response" ∨ s = "abort_by_post_condition" then
        some { success := false, status := s }
      else none
  | .error _ => none

/-- The polling while-loop, as a countdown over the remaining iteration
budget `k`, polling index `n` next. -/
def waitLoop (poll : ℕ → Except String String) :
    ℕ → ℕ → Except String TxConfirmation
  | 0, _ => .error "Transaction confirmation timeout"
  | k + 1, n =>
      match pollStep (poll n) with
      | some out => .ok out
      | none => waitLoop poll k (n + 1)

/-- Embedding of `waitForTransactionConfirmation`: run the polling loop for
the `⌈maxWaitMs / pollIntervalMs⌉` iterations the time guard admits. -/
def waitForTransactionConfirmation (poll : ℕ → Except String String)
    (maxWaitMs : ℕ) : Except String TxConfirmation :=
  waitLoop poll ((maxWaitMs + (pollIntervalMs - 1)) / pollIntervalMs) 0

/-! ## Wallet adapter, src/src/contexts/WalletContext.tsx

Each connectivity-requiring operation is embedded as a function of the
provider's `isConnectedState` flag and of the wallet extension's reply to
the one method it would invoke; alongside the result it returns the list of
wallet-extension interactions performed, so "the extension was not invoked
and no implicit connect was attempted" is the empty effect list. -/

/-- A wallet-extension interaction observable from `WalletContext`. -/
inductive WalletEffect where
  | requestStxGetAccounts
  | requestStxSignMessage (message : String)
  | openContractCallPopup (contractAddress contractName functionName : String)
  | connectPopup
deriving DecidableEq, Repr

/-- Reply of `request("stx_signMessage", ...)`. -/
structure SignMessageResponse where
  signature : String
  publicKey : String
deriving DecidableEq, Repr

/-- Resolution value of `callContract`. -/
structure ContractCallResponse where
  txid : String
deriving DecidableEq, Repr

/-- Embedding of `getAccount` (WalletContext.tsx lines 128-140): guard on
`isConnectedState`, then `request("stx_getAccounts")` whose reply (or
rethrown error) is the `walletResponse` parameter. -/
def getAccount {α : Type} (isConnectedState : Bool)
    (walletResponse : Except String α) :
    Except String α × List WalletEffect :=
  if ¬ isConnectedState then (.error "Wallet not connected", [])
  else (walletResponse, [.requestStxGetAccounts])

/-- Embedding of `signMessage` (WalletContext.tsx lines 142-160): guard on
`isConnectedState`, then `request("stx_signMessage", { message })`. -/
def signMessage (isConnectedState : Bool) (message : String)
    (walletResponse : Except String SignMessageResponse) :
    Except String SignMessageResponse × List WalletEffect :=
  if ¬ isConnectedState then (.error "Wallet not connected", [])
  else (walletResponse, [.requestStxSignMessage message])

/-- Embedding of `callContract` (WalletContext.tsx lines 162-214): guard on
`isConnectedState`, then `openContractCall`; the popup resolves with a
transaction id wrapped as `{ txid }` or rejects (user cancellation is the
error "User cancelled transaction"), modelled by `popupOutcome`. -/
def callContract (isConnectedState : Bool)
    (contractAddress contractName functionName : String)
    (popupOutcome : Except String String) :
    Except String ContractCallResponse × List WalletEffect :=
  if ¬ isConnectedState then (.error "Wallet not connected", [])
  else (popupOutcome.map fun txId => { txid := txId },
    [.openContractCallPopup contractAddress contractName functionName])

/-! ## Order signing, src/unnamed/part_011 (validating `computeOrderHash`)
and src/unnamed/part_010 lines 446-555 (unvalidated variant)

Bytes are naturals below 256.  The external pieces are parameters: the
Clarity principal serialization `serializeCVBytes(standardPrincipalCV(...))`
(which may itself throw on a malformed address) and the SHA-256 digest; the
unvalidated variant's external `hashMessage` likewise.  JS `parseInt(s, 16)`
(longest valid prefix, optional whitespace/sign/0x, NaN on no digit) and the
`Uint8Array` NaN-to-zero, modulo-256 store are modelled exactly in
`parseIntHex`/`toUint8`. -/

/-- Model of the regex test `/^\d+$/.test(salt)`: non-empty and all
characters decimal digits (JS `\d` is exactly `[0-9]`, and without the
multiline flag `^`/`$` anchor at the ends of the input). -/
def saltIsNumeric (salt : String) : Bool :=
  !salt.toList.isEmpty && salt.toList.all Char.isDigit

/-- Value of a hexadecimal digit character, `none` otherwise. -/
def hexDigitVal (c : Char) : Option ℕ :=
  if '0' ≤ c ∧ c ≤ '9' then some (c.toNat - 48)
  else if 'a' ≤ c ∧ c ≤ 'f' then some (c.toNat - 87)
  else if 'A' ≤ c ∧ c ≤ 'F' then some (c.toNat - 55)
  else none

/-- Digit-and-after part of JS `parseInt(s, 16)`: strip an optional
`0x`/`0X`, take the longest hex-digit run, `none` (NaN) when empty. -/
def parseIntHexBody (sign : ℤ) (cs : List Char) : Option ℤ :=
  let cs2 :=
    match cs with
    | '0' :: 'x' :: rest => rest
    | '0' :: 'X' :: rest => rest
    | _ => cs
  let digits := cs2.takeWhile fun c => (hexDigitVal c).isSome
  if digits.isEmpty then none
  else some (sign * digits.foldl
    (fun acc c => acc * 16 + ((hexDigitVal c).getD 0 : ℤ)) 0)

/-- JS `parseInt(s, 16)`: skip leading whitespace, optional sign, then the
radix-16 body; `none` models NaN. -/
def parseIntHex (s : String) : Option ℤ :=
  match s.toList.dropWhile Char.isWhitespace with
  | '+' :: rest => parseIntHexBody 1 rest
  | '-' :: rest => parseIntHexBody (-1) rest
  | cs => parseIntHexBody 1 cs

/-- A `Uint8Array` element store: NaN becomes 0, integers are reduced
modulo 256 (ES `ToUint8`). -/
def toUint8 (v : Option ℤ) : ℕ :=
  match v with
  | none => 0
  | some z => (z % 256).toNat

/-- Embedding of the local `hexToBytes` helper of src/unnamed/part_011
lines 90-97: strip a leading `0x`, allocate `length / 2` bytes (JS
`ToIndex` silently truncates the fractional half byte of an odd-length
string, and the final out-of-bounds write is ignored), each byte parsed
from its two-character substring with `parseInt(..., 16)`. -/
def hexToBytes (hex : String) : List ℕ :=
  let cs := hex.toList
  let cleanHex := match cs with
    | '0' :: 'x' :: rest => rest
    | _ => cs
  (List.range (cleanHex.length / 2)).map fun i =>
    toUint8 (parseIntHex (String.mk ((cleanHex.drop (2 * i)).take 2)))

/-- Big-endian byte rendering of a natural in a fixed width. -/
def natToBytesBE (len n : ℕ) : List ℕ :=
  (List.range len).map fun i => n / 256 ^ (len - 1 - i) % 256

/-- Model of `serializeCVBytes(uintCV(v))`: the external `uintCV` throws
outside the Clarity uint range, otherwise the consensus serialization is the
type tag `0x01` followed by 16 big-endian bytes. -/
def serializeUintCV (n : ℕ) : Except String (List ℕ) :=
  if n < 2 ^ 128 then .ok (1 :: natToBytesBE 16 n)
  else .error "Cannot construct clarity uint from a value outside the uint range"

/-- Numeric value of a decimal-digit string (JS `BigInt(salt)` on a
validated salt). -/
def decimalValue (s : String) : ℕ :=
  s.toList.foldl (fun acc c => acc * 10 + (c.toNat - 48)) 0

/-- Embedding of `computeOrderHash`, src/unnamed/part_011 lines 16-85:
validate the salt, serialize the maker principal (external, may throw),
decode and length-check both position ids, serialize the four uints, then
SHA-256 the concatenation in contract field order.  The errors propagate in
source order: salt first, then the principal serialization, then the maker
and taker position-id length checks, then the uint constructions. -/
def computeOrderHash (serializePrincipalCV : String → Except String (List ℕ))
    (sha256 : List ℕ → List ℕ)
    (maker makerPositionId takerPositionId : String)
    (makerAmount takerAmount : ℕ) (salt : String) (expiration : ℕ) :
    Except String (List ℕ) :=
  if ¬ saltIsNumeric salt then .error "Salt must be a numeric string"
  else
    match serializePrincipalCV maker with
    | .error e => .error e
    | .ok makerBuff =>
      let makerPositionIdBuff := hexToBytes makerPositionId
      let takerPositionIdBuff := hexToBytes takerPositionId
      if makerPositionIdBuff.length ≠ 32 then
        .error ("Maker position ID must be 32 bytes (64 hex chars), got "
          ++ toString makerPositionIdBuff.length ++ " bytes")
      else if takerPositionIdBuff.length ≠ 32 then
        .error ("Taker position ID must be 32 bytes (64 hex chars), got "
          ++ toString takerPositionIdBuff.length ++ " bytes")
      else
        match serializeUintCV makerAmount, serializeUintCV takerAmount,
          serializeUintCV (decimalValue salt), serializeUintCV expiration with
        | .ok makerAmountBuff, .ok takerAmountBuff, .ok saltBuff,
          .ok expirationBuff =>
            .ok (sha256 (makerBuff ++ makerPositionIdBuff ++ takerPositionIdBuff
              ++ makerAmountBuff ++ takerAmountBuff ++ saltBuff
              ++ expirationBuff))
        | .error e, _, _, _ => .error e
        | _, .error e, _, _ => .error e
        | _, _, .error e, _ => .error e
        | _, _, _, .error e => .error e

/-- Lowercase hexadecimal digit character. -/
def hexDigitChar (n : ℕ) : Char :=
  if n < 10 then Char.ofNat (48 + n) else Char.ofNat (97 + (n - 10))

/-- JSON string escaping as `JSON.stringify` performs it on one character. -/
def jsonEscapeChar (c : Char) : List Char :=
  if c = '"' then ['\\', '"']
  else if c = '\\' then ['\\', '\\']
  else if c = Char.ofNat 8 then ['\\', 'b']
  else if c = Char.ofNat 12 then ['\\', 'f']
  else if c = '\n' then ['\\', 'n']
  else if c = '\r' then ['\\', 'r']
  else if c = '\t' then ['\\', 't']
  else if c.toNat < 32 then
    ['\\', 'u', '0', '0', hexDigitChar (c.toNat / 16), hexDigitChar (c.toNat % 16)]
  else [c]

/-- JSON string escaping over a whole string. -/
def jsonEscape (s : String) : String :=
  String.mk (List.flatten (s.toList.map jsonEscapeChar))

/-- The `JSON.stringify` order message of the unvalidated `computeOrderHash`
variant (src/unnamed/part_010 lines 452-475), with its fixed key insertion
order. -/
def orderMessage (maker taker positionId : String)
    (makerAmount takerAmount : ℕ) (salt : String) (expiration : ℕ) : String :=
  "\x7b\"maker\":\"" ++ jsonEscape maker
    ++ "\",\"taker\":\"" ++ jsonEscape taker
    ++ "\",\"positionId\":\"" ++ jsonEscape positionId
    ++ "\",\"makerAmount\":" ++ toString makerAmount
    ++ ",\"takerAmount\":" ++ toString takerAmount
    ++ ",\"salt\":\"" ++ jsonEscape salt
    ++ "\",\"expiration\":" ++ toString expiration ++ "\x7d"

/-- Embedding of the `computeOrderHash` variant at src/unnamed/part_010
lines 452-475: no validation at all — it always hands the JSON order
message to the external `hashMessage` and returns its digest (kept in
`Except` for comparability with the validating variant; this function never
produces the `.error` branch). -/
def computeOrderHash_legacy (hashMessage : String → List ℕ)
    (maker taker positionId : String) (makerAmount takerAmount : ℕ)
    (salt : String) (expiration : ℕ) : Except String (List ℕ) :=
  .ok (hashMessage
    (orderMessage maker taker positionId makerAmount takerAmount salt expiration))

/-- Decimal digit character. -/
def decChar (d : ℕ) : Char := Char.ofNat (48 + d)

/-- Decimal digits of a natural, most significant first; `fuel` bounds the
recursion and any `fuel ≥ 1` suffices for `n < 10 ^ fuel`. -/
def decDigits (fuel n : ℕ) : List Char :=
  match fuel with
  | 0 => []
  | fuel + 1 => if n < 10 then [decChar n] else decDigits fuel (n / 10) ++ [decChar (n % 10)]

/-- Decimal rendering of a natural number (JS `Number.prototype.toString`
on a nonnegative integer). -/
def natToDecimalString (n : ℕ) : String := String.mk (decDigits (n + 1) n)

/-- Embedding of `generateSalt` (src/unnamed/part_011 lines 166-168, and
identically src/unnamed/part_010 lines 543-545): `Date.now().toString()`;
the clock reading is the `now` parameter, in milliseconds. -/
def generateSalt (now : ℕ) : String := natToDecimalString now

/-- C1 (counterexample): the claim quantifies over every call to
`checkIfNeedsSplit`, but the variant at src/unnamed/part_010 lines 123-180
exempts BUY orders entirely: at the claim's own example input (side BUY,
outcome yes, size 2, all balances 0) it returns `needsSplit = false` and
`requiredBalance = 0`, not `needsSplit = true` and `requiredBalance =
2000000`. -/
theorem checkIfNeedsSplit_buyExempt_example_refutes :
    (checkIfNeedsSplit_buyExempt (fun _ => 0) .BUY .yes 2 "0xAA" "0xBB"
        none).needsSplit = false
    ∧ (checkIfNeedsSplit_buyExempt (fun _ => 0) .BUY .yes 2 "0xAA" "0xBB"
        none).requiredBalance = 0 :=
  ⟨rfl, rfl⟩

/-- C1 (amended): for the `checkIfNeedsSplit` variant at src/unnamed/part_010
lines 365-410, a BUY order checks the opposite outcome's position and a SELL
order the same outcome's position, and the balance compared is the balance of
that position; at the claim's example input (BUY yes, size 2, NO balance 0)
it returns `needsSplit = true`, `requiredBalance = 2000000`,
`currentBalance = 0`. -/
theorem checkIfNeedsSplit_requiredPosition :
    (∀ (balanceOf : String → ℕ) (outcome : Outcome) (size : ℚ)
        (yId nId : String),
      (checkIfNeedsSplit balanceOf .BUY outcome size yId nId).requiredPositionId
          = (if outcome = .yes then nId else yId)
      ∧ (checkIfNeedsSplit balanceOf .SELL outcome size yId nId).requiredPositionId
          = (if outcome = .yes then yId else nId)
      ∧ (checkIfNeedsSplit balanceOf .BUY outcome size yId nId).currentBalance
          = (balanceOf (if outcome = .yes then nId else yId) : ℤ)
      ∧ (checkIfNeedsSplit balanceOf .SELL outcome size yId nId).currentBalance
          = (balanceOf (if outcome = .yes then yId else nId) : ℤ))
    ∧ checkIfNeedsSplit (fun _ => 0) .BUY .yes 2 "0xAA" "0xBB" =
        { needsSplit := true, requiredPositionId := "0xBB",
          currentBalance := 0, requiredBalance := 2000000 } := by
  constructor
  · intro balanceOf outcome size yId nId
    cases outcome <;> simp [checkIfNeedsSplit]
  · simp [checkIfNeedsSplit]
    norm_num
    simp [Rat.floor]

/-- C2 (counterexample): for the `checkIfNeedsSplit` variant at
src/unnamed/part_010 lines 123-180 and a BUY order, `needsSplit` is `false`
even though the relevant (opposite-outcome) balance 0 is strictly below
size × 1,000,000 = 2,000,000, so the claimed equivalence fails on that
variant. -/
theorem checkIfNeedsSplit_buyExempt_iff_refuted :
    (checkIfNeedsSplit_buyExempt (fun _ => 0) .BUY .yes 2 "0xAA" "0xBB"
        none).needsSplit = false
    ∧ (((fun _ => 0 : String → ℕ) "0xBB" : ℤ) < ((2 : ℚ) * 1000000).floor) := by
  refine ⟨rfl, ?_⟩
  norm_num
  simp [Rat.floor]

/-- C2 (amended): for the `checkIfNeedsSplit` variant at src/unnamed/part_010
lines 365-410, `needsSplit = true` holds iff the balance of the relevant
position (opposite outcome for BUY, same outcome for SELL) is strictly less
than `Math.floor(size * 1_000_000)`; the variant at lines 123-180 satisfies
the same equivalence for SELL orders, and equality of balance and
requirement yields `needsSplit = false`. -/
theorem checkIfNeedsSplit_needsSplit_iff :
    (∀ (balanceOf : String → ℕ) (side : OrderSide) (outcome : Outcome)
        (size : ℚ) (yId nId : String),
      (checkIfNeedsSplit balanceOf side outcome size yId nId).needsSplit = true
        ↔ (balanceOf (specRelevantPositionId side outcome yId nId) : ℤ) <
            (size * 1000000).floor)
    ∧ (∀ (balanceOf : String → ℕ) (outcome : Outcome) (size : ℚ)
        (yId nId : String),
      (checkIfNeedsSplit_buyExempt balanceOf .SELL outcome size yId nId
          none).needsSplit = true
        ↔ (balanceOf (specRelevantPositionId .SELL outcome yId nId) : ℤ) <
            (size * 1000000).floor)
    ∧ (checkIfNeedsSplit (fun _ => 2000000) .SELL .yes 2 "0xAA"
        "0xBB").needsSplit = false := by
  refine ⟨?_, ?_, ?_⟩
  · intro balanceOf side outcome size yId nId
    cases side <;> cases outcome <;>
      simp [checkIfNeedsSplit, specRelevantPositionId]
  · intro balanceOf outcome size yId nId
    cases outcome <;>
      simp [checkIfNeedsSplit_buyExempt, specRelevantPositionId]
  · simp [checkIfNeedsSplit]
    norm_num
    simp [Rat.floor]

/-- C3: `checkMergeablePairs` returns `min(yesBalance, noBalance)` as the
mergeable amount, which never exceeds either balance, and it reports both
balances unchanged; at the spec's example (YES balance 5,000,000, NO balance
3,000,000) it returns mergeable 3,000,000. -/
theorem checkMergeablePairs_min :
    (∀ (balanceOf : String → ℕ) (yId nId : String),
      (checkMergeablePairs balanceOf yId nId).mergeableAmount =
          min (balanceOf yId) (balanceOf nId)
      ∧ (checkMergeablePairs balanceOf yId nId).mergeableAmount ≤ balanceOf yId
      ∧ (checkMergeablePairs balanceOf yId nId).mergeableAmount ≤ balanceOf nId
      ∧ (checkMergeablePairs balanceOf yId nId).yesBalance = balanceOf yId
      ∧ (checkMergeablePairs balanceOf yId nId).noBalance = balanceOf nId)
    ∧ checkMergeablePairs
        (fun s => if s = "0xAA" then 5000000 else if s = "0xBB" then 3000000 else 0)
        "0xAA" "0xBB" =
        { mergeableAmount := 3000000, yesBalance := 5000000,
          noBalance := 3000000 } := by
  constructor
  · intro balanceOf yId nId
    refine ⟨?_, ?_, ?_, rfl, rfl⟩ <;>
      · simp only [checkMergeablePairs]
        split <;> omega
  · decide

/-- After any comparator-correct sort of a list of levels with pairwise
distinct prices, the price sequence is strictly monotone in the side's
direction. -/
theorem sorted_strict_of_nodup (side : OrderSide) (l : List OrderbookLevel)
    (hnd : (l.map OrderbookLevel.price).Nodup) :
    ((List.insertionSort (levelOrder side) l).map OrderbookLevel.price).Pairwise
      (fun a b => if side = .BUY then b < a else a < b) := by
  have hperm : List.Perm (List.insertionSort (levelOrder side) l) l :=
    List.perm_insertionSort _ _
  have hsorted : List.Sorted (levelOrder side)
      (List.insertionSort (levelOrder side) l) :=
    List.sorted_insertionSort _ _
  have hnd' : ((List.insertionSort (levelOrder side) l).map
      OrderbookLevel.price).Nodup :=
    ((hperm.map OrderbookLevel.price).symm).nodup hnd
  have hne : (List.insertionSort (levelOrder side) l).Pairwise
      (fun a b => a.price ≠ b.price) := List.pairwise_map.1 hnd'
  have hall := hsorted.and hne
  rw [List.pairwise_map]
  refine hall.imp ?_
  intro a b hab
  obtain ⟨hord, hne2⟩ := hab
  cases side
  · simpa using lt_of_le_of_ne hord (fun e => hne2 e.symm)
  · simpa using lt_of_le_of_ne hord hne2

/-- C6: for every level list with pairwise-distinct prices,
`upsertOrderbookLevel` returns a list whose prices are strictly descending
for BUY (bids) and strictly ascending for SELL (asks). -/
theorem upsertOrderbookLevel_sorted (levels : List OrderbookLevel)
    (price sizeDelta : ℚ) (side : OrderSide)
    (h : (levels.map OrderbookLevel.price).Nodup) :
    ((upsertOrderbookLevel levels price sizeDelta side).map
        OrderbookLevel.price).Pairwise
      (fun a b => if side = .BUY then b < a else a < b) := by
  have hpn : (levels.map fun l =>
      ({ price := l.price, size := l.size, orderCount := l.orderCount } :
        OrderbookLevel)) = levels := by
    induction levels with
    | nil => rfl
    | cons x xs ih => simp [ih]
  unfold upsertOrderbookLevel
  apply sorted_strict_of_nodup
  have hmm : ((levels.map fun l =>
      ({ price := l.price, size := l.size, orderCount := l.orderCount } :
        OrderbookLevel)).map OrderbookLevel.price) =
      levels.map OrderbookLevel.price := by rw [hpn]
  split
  case _ index heq =>
    obtain ⟨-, a, ha, hpa⟩ := findIdx?_some_spec heq
    simp only [Nat.sub_zero] at ha
    have hap : a.price = price := of_decide_eq_true hpa
    rw [List.map_set]
    have hset : (((levels.map fun l =>
        ({ price := l.price, size := l.size, orderCount := l.orderCount } :
          OrderbookLevel)).map OrderbookLevel.price).set index price) =
        ((levels.map fun l =>
        ({ price := l.price, size := l.size, orderCount := l.orderCount } :
          OrderbookLevel)).map OrderbookLevel.price) := by
      apply set_getElem?_eq_self
      rw [List.getElem?_map, ha]
      simp [hap]
    simp only [hmm] at hset
    simpa [hmm, hset] using h
  case _ heq =>
    rw [List.map_append, List.nodup_append]
    refine ⟨by simpa [hmm] using h, by simp, ?_⟩
    intro x hx
    simp only [List.map_cons, List.map_nil, List.mem_singleton]
    obtain ⟨lvl, hlvl, rfl⟩ := List.mem_map.1 hx
    have := List.findIdx?_eq_none_iff.1 heq lvl hlvl
    simpa using of_decide_eq_false this

/-- C6 (witness): a concrete two-level bid book with distinct prices stays
strictly descending after upserting a new level at price 3/2. -/
theorem upsertOrderbookLevel_sorted_concrete :
    ((([{ price := 1, size := 5, orderCount := none },
        { price := 2, size := 7, orderCount := some 1 }] :
          List OrderbookLevel).map OrderbookLevel.price).Nodup)
    ∧ ((upsertOrderbookLevel
          [{ price := 1, size := 5, orderCount := none },
           { price := 2, size := 7, orderCount := some 1 }]
          (3/2) 4 .BUY).map OrderbookLevel.price).Pairwise
        (fun a b => if OrderSide.BUY = .BUY then b < a else a < b) := by
  have hnd : (([{ price := 1, size := 5, orderCount := none },
      { price := 2, size := 7, orderCount := some 1 }] :
        List OrderbookLevel).map OrderbookLevel.price).Nodup := by
    simp [List.nodup_cons]
  exact ⟨hnd, upsertOrderbookLevel_sorted _ _ _ _ hnd⟩


/-- C7: `apiRequest` throws the response body text on a non-2xx status (or
the generic "Request failed with status <code>" message when the body is
empty), returns `none` on 2xx with `skipJson`, returns the parsed JSON body
on 2xx otherwise, and its outcome depends only on the single response to
its one fetch — no retry consults any later response. -/
theorem apiRequest_contract {α : Type} (parseJson : String → Except String α)
    (responses : ℕ → HttpResponse) (skipJson : Bool) :
    ((responses 0).status < 200 ∨ 299 < (responses 0).status →
        apiRequest parseJson responses skipJson =
          .error (if (responses 0).bodyText = "" then
              "Request failed with status " ++ toString (responses 0).status
            else (responses 0).bodyText))
    ∧ (200 ≤ (responses 0).status → (responses 0).status ≤ 299 →
        skipJson = true →
        apiRequest parseJson responses skipJson = .ok none)
    ∧ (200 ≤ (responses 0).status → (responses 0).status ≤ 299 →
        skipJson = false →
        apiRequest parseJson responses skipJson =
          (parseJson (responses 0).bodyText).map some)
    ∧ (∀ responses2 : ℕ → HttpResponse, responses2 0 = responses 0 →
        apiRequest parseJson responses2 skipJson =
          apiRequest parseJson responses skipJson) := by
  refine ⟨?_, ?_, ?_, ?_⟩
  · intro hfail
    have hno : ¬ (200 ≤ (responses 0).status ∧ (responses 0).status ≤ 299) := by omega
    simp [apiRequest, hno]
  · intro h1 h2 hs
    subst hs
    simp [apiRequest, h1, h2]
  · intro h1 h2 hs
    subst hs
    simp [apiRequest, h1, h2]
  · intro responses2 h0
    simp [apiRequest, h0]

/-- C7 (witness): a 404 response with an empty body yields the generic
status-code error. -/
theorem apiRequest_contract_witness :
    apiRequest (fun s => Except.ok s.length) (fun _ => ⟨404, ""⟩) false =
      .error "Request failed with status 404" := by
  have h := (apiRequest_contract (fun s => Except.ok s.length)
    (fun _ => ⟨404, ""⟩) false).1 (Or.inr (by decide))
  simpa using h



/-- When no poll ever reports a terminal status, every iteration budget
ends in the timeout error. -/
theorem waitLoop_never_terminal (poll : ℕ → Except String String)
    (h : ∀ i, pollStep (poll i) = none) :
    ∀ k n, waitLoop poll k n = .error "Transaction confirmation timeout" := by
  intro k
  induction k with
  | zero => intro n; rfl
  | succ k ih => intro n; simp [waitLoop, h n, ih (n + 1)]

/-- C8: when the status query never returns a terminal state, the
confirmation loop terminates with the thrown error "Transaction confirmation
timeout" once the configured maximum wait has elapsed — it is never the
`{ success := false, status }` value an aborted transaction returns, as the
third conjunct shows for an always-aborting poll. -/
theorem waitForTransactionConfirmation_timeout
    (poll : ℕ → Except String String)
    (h : ∀ i, pollStep (poll i) = none) (maxWaitMs : ℕ) :
    (waitForTransactionConfirmation poll maxWaitMs =
      .error "Transaction confirmation timeout")
    ∧ (∀ c : TxConfirmation,
        waitForTransactionConfirmation poll maxWaitMs ≠ .ok c)
    ∧ (0 < maxWaitMs →
        waitForTransactionConfirmation (fun _ => .ok "abort_by_response")
          maxWaitMs = .ok { success := false, status := "abort_by_response" }) := by
  refine ⟨?_, ?_, ?_⟩
  · exact waitLoop_never_terminal poll h _ 0
  · intro c hc
    rw [waitForTransactionConfirmation, waitLoop_never_terminal poll h _ 0] at hc
    cases hc
  · intro hpos
    have hone : ∃ k, (maxWaitMs + (pollIntervalMs - 1)) / pollIntervalMs = k + 1 := by
      have : 1 ≤ (maxWaitMs + (pollIntervalMs - 1)) / pollIntervalMs := by
        rw [Nat.le_div_iff_mul_le (by simp [pollIntervalMs])]
        simp [pollIntervalMs]
        omega
      exact ⟨(maxWaitMs + (pollIntervalMs - 1)) / pollIntervalMs - 1, by omega⟩
    obtain ⟨k, hk⟩ := hone
    simp [waitForTransactionConfirmation, hk, waitLoop, pollStep]

/-- C8 (witness): a transaction that stays "pending" forever times out at
the default 120000 ms budget. -/
theorem waitForTransactionConfirmation_timeout_witness :
    waitForTransactionConfirmation (fun _ => .ok "pending") 120000 =
      .error "Transaction confirmation timeout" :=
  (waitForTransactionConfirmation_timeout (fun _ => .ok "pending")
    (fun _ => rfl) 120000).1

/-- C9: with the wallet disconnected, `getAccount`, `signMessage` and
`callContract` all reject immediately with "Wallet not connected" and
perform no wallet-extension interaction at all (empty effect list — in
particular no connect attempt). -/
theorem wallet_disconnected_fail_fast (isConnectedState : Bool)
    (h : isConnectedState = false) :
    (∀ (α : Type) (walletResponse : Except String α),
        getAccount isConnectedState walletResponse =
          (.error "Wallet not connected", []))
    ∧ (∀ (message : String) (walletResponse : Except String SignMessageResponse),
        signMessage isConnectedState message walletResponse =
          (.error "Wallet not connected", []))
    ∧ (∀ (contractAddress contractName functionName : String)
        (popupOutcome : Except String String),
        callContract isConnectedState contractAddress contractName functionName
          popupOutcome = (.error "Wallet not connected", [])) := by
  subst h
  refine ⟨?_, ?_, ?_⟩ <;> intros <;>
    simp [getAccount, signMessage, callContract]

/-- C9 (witness): concrete disconnected calls of all three operations. -/
theorem wallet_disconnected_fail_fast_witness :
    getAccount false (Except.ok (0 : ℕ)) = (.error "Wallet not connected", [])
    ∧ signMessage false "hello" (.ok { signature := "s", publicKey := "p" }) =
        (.error "Wallet not connected", [])
    ∧ callContract false "SP1" "ctf-exchange" "fill-order" (.ok "0xtx") =
        (.error "Wallet not connected", []) :=
  ⟨(wallet_disconnected_fail_fast false rfl).1 ℕ (.ok 0),
   (wallet_disconnected_fail_fast false rfl).2.1 "hello"
     (.ok { signature := "s", publicKey := "p" }),
   (wallet_disconnected_fail_fast false rfl).2.2 "SP1" "ctf-exchange"
     "fill-order" (.ok "0xtx")⟩

/-- The model of `uintCV`'s throw carries a single fixed message. -/
theorem serializeUintCV_error_msg {n : ℕ} {e : String}
    (h : serializeUintCV n = .error e) :
    e = "Cannot construct clarity uint from a value outside the uint range" := by
  unfold serializeUintCV at h
  split at h
  · cases h
  · cases h; rfl

/-- The maker position-id length error never collides with the salt error,
whatever the reported length. -/
theorem makerMsg_ne_salt (n : ℕ) :
    ("Maker position ID must be 32 bytes (64 hex chars), got "
      ++ toString n ++ " bytes") ≠ "Salt must be a numeric string" := by
  intro h
  have hl := congrArg String.length h
  rw [String.length_append, String.length_append] at hl
  have h1 : ("Maker position ID must be 32 bytes (64 hex chars), got " :
    String).length = 55 := rfl
  have h2 : (" bytes" : String).length = 6 := rfl
  have h3 : ("Salt must be a numeric string" : String).length = 29 := rfl
  omega

/-- The taker position-id length error never collides with the salt error,
whatever the reported length. -/
theorem takerMsg_ne_salt (n : ℕ) :
    ("Taker position ID must be 32 bytes (64 hex chars), got "
      ++ toString n ++ " bytes") ≠ "Salt must be a numeric string" := by
  intro h
  have hl := congrArg String.length h
  rw [String.length_append, String.length_append] at hl
  have h1 : ("Taker position ID must be 32 bytes (64 hex chars), got " :
    String).length = 55 := rfl
  have h2 : (" bytes" : String).length = 6 := rfl
  have h3 : ("Salt must be a numeric string" : String).length = 29 := rfl
  omega

/-- The uint-range error never collides with the salt error. -/
theorem uintMsg_ne_salt :
    ("Cannot construct clarity uint from a value outside the uint range" :
      String) ≠ "Salt must be a numeric string" := by decide

/-- C4 (amended): for the validating `computeOrderHash` at
src/unnamed/part_011 lines 16-85, a non-numeric salt yields the salt
rejection (for every hash function — no digest is computed), and a position
id not decoding to 32 bytes yields a rejection whose value never is a
digest and does not depend on the hash function at all; the function
performs no network or wallet call.  (The unvalidated variant at
src/unnamed/part_010 lines 452-475 is the counterexample to the claim as
stated.) -/
theorem computeOrderHash_rejects_invalid
    (serializePrincipalCV : String → Except String (List ℕ))
    (sha256 sha256' : List ℕ → List ℕ)
    (maker makerPositionId takerPositionId : String)
    (makerAmount takerAmount : ℕ) (salt : String) (expiration : ℕ) :
    (saltIsNumeric salt = false →
      computeOrderHash serializePrincipalCV sha256 maker makerPositionId
        takerPositionId makerAmount takerAmount salt expiration =
        .error "Salt must be a numeric string")
    ∧ ((hexToBytes makerPositionId).length ≠ 32 ∨
        (hexToBytes takerPositionId).length ≠ 32 →
      (∀ digest : List ℕ,
        computeOrderHash serializePrincipalCV sha256 maker makerPositionId
          takerPositionId makerAmount takerAmount salt expiration ≠ .ok digest)
      ∧ computeOrderHash serializePrincipalCV sha256 maker makerPositionId
          takerPositionId makerAmount takerAmount salt expiration =
        computeOrderHash serializePrincipalCV sha256' maker makerPositionId
          takerPositionId makerAmount takerAmount salt expiration) := by
  constructor
  · intro hs
    simp [computeOrderHash, hs]
  · intro hlen
    by_cases hs : saltIsNumeric salt = true
    · cases hser : serializePrincipalCV maker with
      | error e =>
        constructor
        · intro digest h
          simp [computeOrderHash, hs, hser] at h
        · simp [computeOrderHash, hs, hser]
      | ok buff =>
        by_cases h1 : (hexToBytes makerPositionId).length ≠ 32
        · constructor
          · intro digest h
            simp [computeOrderHash, hs, hser, h1] at h
          · simp [computeOrderHash, hs, hser, h1]
        · have h2 : (hexToBytes takerPositionId).length ≠ 32 := by tauto
          constructor
          · intro digest h
            simp [computeOrderHash, hs, hser, h1, h2] at h
          · simp [computeOrderHash, hs, hser, h1, h2]
    · have hs' : saltIsNumeric salt = false := by
        cases hq : saltIsNumeric salt
        · rfl
        · exact absurd hq hs
      constructor
      · intro digest h
        simp [computeOrderHash, hs'] at h
      · simp [computeOrderHash, hs']

/-- C4 (witness): a non-numeric salt "abc" is rejected with the salt error;
with a valid salt but a 1-byte position id `0xAA` the result is never a
digest and is unchanged under a different hash function. -/
theorem computeOrderHash_rejects_invalid_witness :
    (computeOrderHash (fun _ => .ok []) (fun _ => []) "SPX" "0xAA" "0xBB" 1 1
        "abc" 9 = .error "Salt must be a numeric string")
    ∧ (computeOrderHash (fun _ => .ok []) (fun _ => []) "SPX" "0xAA" "0xBB" 1 1
        "123" 9 ≠ .ok [])
    ∧ (computeOrderHash (fun _ => .ok []) (fun _ => []) "SPX" "0xAA" "0xBB" 1 1
        "123" 9 =
      computeOrderHash (fun _ => .ok []) (fun _ => [7]) "SPX" "0xAA" "0xBB" 1 1
        "123" 9) :=
  ⟨(computeOrderHash_rejects_invalid (fun _ => .ok []) (fun _ => [])
      (fun _ => []) "SPX" "0xAA" "0xBB" 1 1 "abc" 9).1 rfl,
   ((computeOrderHash_rejects_invalid (fun _ => .ok []) (fun _ => [])
      (fun _ => [7]) "SPX" "0xAA" "0xBB" 1 1 "123" 9).2
      (Or.inl (by decide))).1 [],
   ((computeOrderHash_rejects_invalid (fun _ => .ok []) (fun _ => [])
      (fun _ => [7]) "SPX" "0xAA" "0xBB" 1 1 "123" 9).2
      (Or.inl (by decide))).2⟩

/-- C4 (counterexample): the `computeOrderHash` variant at
src/unnamed/part_010 lines 452-475 performs no validation: at a concrete
input whose salt "not-a-number" is not numeric (and whose position id is
not 32 bytes either) it still hands the message to the hash and returns a
digest instead of rejecting. -/
theorem computeOrderHash_legacy_no_validation :
    saltIsNumeric "not-a-number" = false
    ∧ computeOrderHash_legacy (fun _ => []) "SP000FAKE" "" "0xAA" 1 1
        "not-a-number" 999999999 = .ok [] :=
  ⟨rfl, rfl⟩

/-- C5: both order-hash computations are deterministic — the embeddings
read nothing but their arguments (the source consults no clock, randomness
or call history during serialization or hashing), so two invocations on
componentwise-equal input tuples produce byte-for-byte equal digests, for
the validating variant (src/unnamed/part_011) and the JSON variant
(src/unnamed/part_010) alike. -/
theorem computeOrderHash_deterministic
    (serializePrincipalCV : String → Except String (List ℕ))
    (sha256 : List ℕ → List ℕ) (hashMessage : String → List ℕ)
    (maker makerPositionId takerPositionId taker positionId : String)
    (makerAmount takerAmount : ℕ) (salt : String) (expiration : ℕ)
    (maker2 makerPositionId2 takerPositionId2 taker2 positionId2 : String)
    (makerAmount2 takerAmount2 : ℕ) (salt2 : String) (expiration2 : ℕ)
    (h : maker = maker2 ∧ makerPositionId = makerPositionId2 ∧
      takerPositionId = takerPositionId2 ∧ makerAmount = makerAmount2 ∧
      takerAmount = takerAmount2 ∧ salt = salt2 ∧ expiration = expiration2)
    (hleg : taker = taker2 ∧ positionId = positionId2) :
    computeOrderHash serializePrincipalCV sha256 maker makerPositionId
        takerPositionId makerAmount takerAmount salt expiration =
      computeOrderHash serializePrincipalCV sha256 maker2 makerPositionId2
        takerPositionId2 makerAmount2 takerAmount2 salt2 expiration2
    ∧ computeOrderHash_legacy hashMessage maker taker positionId makerAmount
        takerAmount salt expiration =
      computeOrderHash_legacy hashMessage maker2 taker2 positionId2
        makerAmount2 takerAmount2 salt2 expiration2 := by
  obtain ⟨rfl, rfl, rfl, rfl, rfl, rfl, rfl⟩ := h
  obtain ⟨rfl, rfl⟩ := hleg
  exact ⟨rfl, rfl⟩

/-- C5 (witness): determinism instantiated at a concrete order tuple. -/
theorem computeOrderHash_deterministic_witness :
    computeOrderHash (fun _ => .ok [5]) (fun l => l) "SPX" "0xAA" "0xBB" 1 2
        "123" 9 =
      computeOrderHash (fun _ => .ok [5]) (fun l => l) "SPX" "0xAA" "0xBB" 1 2
        "123" 9
    ∧ computeOrderHash_legacy (fun s => [s.length]) "SPX" "T" "0xAA" 1 2
        "123" 9 =
      computeOrderHash_legacy (fun s => [s.length]) "SPX" "T" "0xAA" 1 2
        "123" 9 :=
  computeOrderHash_deterministic (fun _ => .ok [5]) (fun l => l)
    (fun s => [s.length]) "SPX" "0xAA" "0xBB" "T" "0xAA" 1 2 "123" 9
    "SPX" "0xAA" "0xBB" "T" "0xAA" 1 2 "123" 9
    ⟨rfl, rfl, rfl, rfl, rfl, rfl, rfl⟩ ⟨rfl, rfl⟩

/-- A decimal digit below 10 renders as a digit character. -/
theorem decChar_isDigit {d : ℕ} (h : d < 10) : (decChar d).isDigit = true := by
  interval_cases d <;> decide

/-- Every character of the decimal rendering is a digit. -/
theorem decDigits_all_digits :
    ∀ fuel n, (decDigits fuel n).all Char.isDigit = true := by
  intro fuel
  induction fuel with
  | zero => intro n; rfl
  | succ fuel ih =>
    intro n
    rw [decDigits]
    split
    · next h => simp [decChar_isDigit h]
    · next h =>
      rw [List.all_append]
      have hm : n % 10 < 10 := Nat.mod_lt _ (by omega)
      simp [ih (n / 10), decChar_isDigit hm]

/-- The decimal rendering is never empty. -/
theorem decDigits_ne_nil (fuel n : ℕ) : decDigits (fuel + 1) n ≠ [] := by
  rw [decDigits]
  split <;> simp

/-- A generated salt passes the numeric-salt regex. -/
theorem generateSalt_numeric (now : ℕ) :
    saltIsNumeric (generateSalt now) = true := by
  have h1 : (decDigits (now + 1) now).all Char.isDigit = true :=
    decDigits_all_digits (now + 1) now
  have h2 : decDigits (now + 1) now ≠ [] := decDigits_ne_nil now now
  simp [saltIsNumeric, generateSalt, natToDecimalString, String.toList, h1, h2]

/-- C10: every salt `generateSalt` produces is a non-empty all-digit decimal
string, so it satisfies `computeOrderHash`'s salt precondition: for any
principal serializer (whose own failures are not the salt message — the
real library reports malformed addresses, not salts) the hash computation
never rejects a generated salt with "Salt must be a numeric string". -/
theorem generateSalt_salt_accepted :
    ∀ now : ℕ,
      saltIsNumeric (generateSalt now) = true
      ∧ ∀ (serializePrincipalCV : String → Except String (List ℕ))
          (sha256 : List ℕ → List ℕ)
          (maker makerPositionId takerPositionId : String)
          (makerAmount takerAmount expiration : ℕ),
          (∀ s e, serializePrincipalCV s = .error e →
            e ≠ "Salt must be a numeric string") →
          computeOrderHash serializePrincipalCV sha256 maker makerPositionId
            takerPositionId makerAmount takerAmount (generateSalt now)
            expiration ≠ .error "Salt must be a numeric string" := by
  intro now
  refine ⟨generateSalt_numeric now, ?_⟩
  intro serializePrincipalCV sha256 maker makerPositionId takerPositionId
    makerAmount takerAmount expiration hser hcontra
  have hs := generateSalt_numeric now
  cases hq : serializePrincipalCV maker with
  | error e =>
    simp [computeOrderHash, hs, hq] at hcontra
    exact hser maker e hq hcontra
  | ok buff =>
    by_cases h1 : (hexToBytes makerPositionId).length ≠ 32
    · simp [computeOrderHash, hs, hq, h1] at hcontra
      exact makerMsg_ne_salt _ hcontra
    · by_cases h2 : (hexToBytes takerPositionId).length ≠ 32
      · simp [computeOrderHash, hs, hq, h1, h2] at hcontra
        exact takerMsg_ne_salt _ hcontra
      · simp [computeOrderHash, hs, hq, h1, h2] at hcontra
        rcases hma : serializeUintCV makerAmount with e | mb
        · simp [hma] at hcontra
          exact uintMsg_ne_salt (serializeUintCV_error_msg hma ▸ hcontra)
        · rcases hta : serializeUintCV takerAmount with e | tb
          · simp [hma, hta] at hcontra
            exact uintMsg_ne_salt (serializeUintCV_error_msg hta ▸ hcontra)
          · rcases hsa : serializeUintCV (decimalValue (generateSalt now))
              with e | sb
            · simp [hma, hta, hsa] at hcontra
              exact uintMsg_ne_salt (serializeUintCV_error_msg hsa ▸ hcontra)
            · rcases hex : serializeUintCV expiration with e | eb
              · simp [hma, hta, hsa, hex] at hcontra
                exact uintMsg_ne_salt (serializeUintCV_error_msg hex ▸ hcontra)
              · simp [hma, hta, hsa, hex] at hcontra

/-- C10 (witness): the salt generated at a concrete clock reading passes the
regex and is never rejected as non-numeric by the hash computation. -/
theorem generateSalt_salt_accepted_witness :
    saltIsNumeric (generateSalt 1700000000000) = true
    ∧ computeOrderHash (fun _ => .ok []) (fun _ => []) "SPX" "0xAA" "0xBB" 1 1
        (generateSalt 1700000000000) 9 ≠
      .error "Salt must be a numeric string" :=
  ⟨(generateSalt_salt_accepted 1700000000000).1,
   (generateSalt_salt_accepted 1700000000000).2 (fun _ => .ok []) (fun _ => [])
     "SPX" "0xAA" "0xBB" 1 1 9 (fun s e h => by simp at h)⟩

end StackcastWeb
